import Mathlib

/-!
Shallow embedding of the GamePower wallet pallet (`src/wallet/src/lib.rs`).

Machine integers are modelled as `Nat` with explicit checked arithmetic at the
`u64` / `u128` bounds, matching the pallet's `checked_add` / `checked_sub`
calls.  This Substrate-3.0 `decl_module!` pallet has no transactional dispatch
(no `#[transactional]` anywhere): storage writes made before a failure point
persist even when the dispatchable returns an error.  Each dispatchable is
therefore a function `... → Sys → Sys × Option WErr`, returning the storage
state that persists after the call — including any writes committed before an
error — together with the dispatch error, if any.  Error paths that precede
every write return the pre-state unchanged, which is what the pallet's own
`assert_noop!` tests check on those paths.
-/

namespace GPWallet

/-- Accounts are numeric ids, as in the mock runtime (`type AccountId = u64`). -/
abbrev Account := Nat

/-- An asset reference `(class_id, token_id)`. -/
abbrev Asset := Nat × Nat

/-- Largest `u64` value (`ListingId`, `ListingCount`, `OrderCount` bound). -/
def U64MAX : Nat := 2 ^ 64 - 1

/-- Largest `u128` value (`ClaimId` bound). -/
def U128MAX : Nat := 2 ^ 128 - 1

/-- Pointwise map update, used for every keyed store. -/
def fupd {α β : Type} [DecidableEq α] (f : α → β) (k : α) (v : β) : α → β :=
  fun x => if x = k then v else f x

/-- Modelled from the spec: the Asset Registry external collaborator (spec
section 6) that owns canonical token identity and the current holder.  `owners`
is the token table (a token exists iff it has a holder, as in the backing NFT
module where `is_owner` is a lookup in the token table); `classes` maps a class
id to its class owner.  The spec only promises `transfer(from, to, asset) ->
Result<(), Error>` and section 5 explicitly contemplates collaborator-side
failure, so `vetoes` is an abstract failure source for transfers beyond plain
non-ownership. -/
structure Registry where
  owners : Asset → Option Account
  classes : Nat → Option Account
  vetoes : Account → Account → Asset → Bool

/-- Registry transfer: fails when `f` is not the current holder of the token
(or the token does not exist), or when the collaborator vetoes the move. -/
def registryTransfer (f t : Account) (asset : Asset) (r : Registry) : Option Registry :=
  if r.owners asset = some f ∧ r.vetoes f t asset = false then
    some { r with owners := fupd r.owners asset (some t) }
  else none

/-- Registry burn: fails when `owner` is not the current holder. -/
def registryBurn (owner : Account) (asset : Asset) (r : Registry) : Option Registry :=
  if r.owners asset = some owner then
    some { r with owners := fupd r.owners asset none }
  else none

/-- `Listing` record (`src/wallet/src/lib.rs:49`). -/
structure Listing where
  id : Nat
  seller : Account
  asset : Asset
  price : Nat
deriving DecidableEq, Repr

/-- `Claim` record (`src/wallet/src/lib.rs:63`). -/
structure ClaimRec where
  receiver : Account
  asset : Asset
deriving DecidableEq, Repr

/-- `Order` record (`src/wallet/src/lib.rs:73`). -/
structure OrderRec where
  listing : Listing
  buyer : Account
  block : Nat
deriving DecidableEq, Repr

/-- The observable state: the wallet pallet's storage items (`decl_storage!`,
`src/wallet/src/lib.rs:120-151`) together with the external Asset Registry and
the Currency Ledger balances, plus the current block number. -/
structure Sys where
  reg : Registry
  balances : Account → Nat
  blockNumber : Nat
  listings : Nat → Option Listing
  listingsByOwner : Account → Option (List Nat)
  allListings : List Asset
  nextListingId : Nat
  listingCount : Nat
  orderCount : Nat
  orderHistory : Asset → Option OrderRec
  openClaims : Account → Nat → Option ClaimRec
  allClaims : List Asset
  nextClaimId : Nat
  emotes : Asset → Account → List (List Nat)

/-- The pallet's `Config` constants: the four feature flags, plus the Currency
Ledger's existence floor (modelled from the spec: the payer must retain at
least a configurable floor balance, spec section 4.6). -/
structure Cfg where
  allowTransfer : Bool
  allowBurn : Bool
  allowEscrow : Bool
  allowClaim : Bool
  floor : Nat

/-- Modelled from the spec: the module's escrow account (`get_escrow_account`,
derived from the `ModuleId`); an opaque dedicated account distinct from user
accounts. -/
def escrowAccount : Account := 1000000000

/-- Modelled from the spec: the module's claim-custody account
(`get_claim_account`, sub-account 100 of the `ModuleId`). -/
def claimAccount : Account := 1000000100

/-- The pallet's `Error` enum, plus `currencyFailed` for errors surfaced from
the Currency Ledger and `panic` for Rust `unwrap` aborts. -/
inductive WErr where
  | transfersNotAllowed
  | transferCancelled
  | burnCancelled
  | burningNotAllowed
  | escrowNotAllowed
  | assetLocked
  | claimingNotAllowed
  | claimCancelled
  | assetNotFound
  | listingNotFound
  | unlistingFailed
  | claimNotFound
  | claimCreateFailed
  | noAvailableListingId
  | noAvailableClaimId
  | noAvailableOrderId
  | invalidEmote
  | noPermission
  | currencyFailed
  | panicked
deriving DecidableEq, Repr

/-- `Module::check_ownership`: delegates to the registry's `is_owner`
(a token-table lookup). -/
def check_ownership (acc : Account) (asset : Asset) (s : Sys) : Bool :=
  s.reg.owners asset = some acc

/-- `Module::is_listed`: linear scan of `AllListings`. -/
def is_listed (s : Sys) (asset : Asset) : Bool :=
  decide (asset ∈ s.allListings)

/-- `Module::is_claiming`: linear scan of `AllClaims`. -/
def is_claiming (s : Sys) (asset : Asset) : Bool :=
  decide (asset ∈ s.allClaims)

/-- `Module::is_locked`: listed or claimed. -/
def is_locked (s : Sys) (asset : Asset) : Bool :=
  is_listed s asset || is_claiming s asset

/-- `Module::do_transfer`: requests the registry transfer and discards its
error (`AssetModule::transfer(..).ok()` in the source), reporting success
unconditionally; on registry failure the state is simply unchanged. -/
def do_transfer (f t : Account) (asset : Asset) (s : Sys) : Sys :=
  match registryTransfer f t asset s.reg with
  | some r => { s with reg := r }
  | none => s

/-- Dispatchable `transfer` (`src/wallet/src/lib.rs:239-257`).  All three
checks precede any write, so every error path returns the pre-state.  The
final step routes through the repo's own `OnTransferHandler` implementation
(`src/wallet/src/lib.rs:704-719`), which wraps `do_transfer` and therefore
never fails, so the `TransferCancelled` arm is unreachable. -/
def transfer (c : Cfg) (caller t : Account) (asset : Asset) (s : Sys) : Sys × Option WErr :=
  if c.allowTransfer = false then (s, some .transfersNotAllowed)
  else if check_ownership caller asset s = false then (s, some .noPermission)
  else if is_locked s asset then (s, some .assetLocked)
  else (do_transfer caller t asset s, none)

/-- Dispatchable `burn` (`src/wallet/src/lib.rs:263-281`).  All checks precede
any write.  The final step routes through the repo's `OnBurnHandler`
implementation (`src/wallet/src/lib.rs:722-728`), which propagates the
registry error; a failed registry burn writes nothing. -/
def burn (c : Cfg) (caller : Account) (asset : Asset) (s : Sys) : Sys × Option WErr :=
  if c.allowBurn = false then (s, some .burningNotAllowed)
  else if check_ownership caller asset s = false then (s, some .noPermission)
  else if is_locked s asset then (s, some .assetLocked)
  else
    match registryBurn caller asset s.reg with
    | some r => ({ s with reg := r }, none)
    | none => (s, some .burnCancelled)

/-- Dispatchable `list` (`src/wallet/src/lib.rs:288-358`).  Behaviours taken
directly from the source: the escrow move is `do_transfer(..).ok()`, so a
registry failure is swallowed and the listing is created anyway; the
`ListingCount` increment is `mutate(..).ok()`, so on `u64` overflow the count
is silently left unchanged while the operation proceeds.  Only the
`NextListingId` allocation propagates its overflow error — and since dispatch
is not transactional and the escrow move has already been committed, that
error path returns `s1`, with the asset moved to escrow but no store
written. -/
def list (c : Cfg) (caller : Account) (asset : Asset) (price : Nat) (s : Sys) :
    Sys × Option WErr :=
  if c.allowEscrow = false then (s, some .escrowNotAllowed)
  else if check_ownership caller asset s = false then (s, some .noPermission)
  else if is_locked s asset then (s, some .assetLocked)
  else
    let s1 := do_transfer caller escrowAccount asset s
    if s1.nextListingId = U64MAX then (s1, some .noAvailableListingId)
    else
      let lid := s1.nextListingId
      let s2 := { s1 with nextListingId := lid + 1 }
      let s3 := { s2 with listingCount :=
        if s2.listingCount = U64MAX then s2.listingCount else s2.listingCount + 1 }
      let s4 := { s3 with listings := fupd s3.listings lid (some ⟨lid, caller, asset, price⟩) }
      let byo := fupd s4.listingsByOwner caller (some ((s4.listingsByOwner caller).getD [] ++ [lid]))
      let s5 := { s4 with listingsByOwner := byo }
      ({ s5 with allListings := s5.allListings ++ [asset] }, none)

/-- `Module::do_unlist` (`src/wallet/src/lib.rs:613-666`).  The escrow-out
move (skipped on a buy) swallows registry errors; the `ListingCount`
decrement is `mutate(..).ok()` so underflow at zero is silently ignored;
removal from `AllListings` uses `position(..).unwrap()`, a panic when the
asset is absent; removal from `ListingsByOwner` errors with `ListingNotFound`
when the seller has no entry — and by that point the custody move, the count
decrement, and the `AllListings` removal have already been committed, so that
error path returns the partially-written state.  It does not itself remove
the `Listings` record. -/
def do_unlist (sndr : Account) (l : Listing) (isBuy : Bool) (s : Sys) : Sys × Option WErr :=
  let s1 := if isBuy then s else do_transfer escrowAccount sndr l.asset s
  let s2 := { s1 with listingCount :=
    if s1.listingCount = 0 then s1.listingCount else s1.listingCount - 1 }
  if decide (l.asset ∈ s2.allListings) = false then (s2, some .panicked)
  else
    let s3 := { s2 with allListings := s2.allListings.erase l.asset }
    match s3.listingsByOwner l.seller with
    | none => (s3, some .listingNotFound)
    | some xs =>
        let byo := fupd s3.listingsByOwner l.seller (some (xs.filter (fun x => x != l.id)))
        ({ s3 with listingsByOwner := byo }, none)

/-- Dispatchable `unlist` (`src/wallet/src/lib.rs:364-391`).  A missing
listing or a caller that is not the listing's seller fails inside the
`try_mutate_exists` closure before any write (the closure's error prevents
the write-back), so those paths return the pre-state; an error from
`do_unlist` keeps `do_unlist`'s committed writes.  On success the write-back
re-inserts the unchanged listing value and the top-level
`Listings::remove` then deletes it. -/
def unlist (c : Cfg) (caller : Account) (lid : Nat) (s : Sys) : Sys × Option WErr :=
  if c.allowEscrow = false then (s, some .escrowNotAllowed)
  else
    match s.listings lid with
    | none => (s, some .listingNotFound)
    | some l =>
      if caller ≠ l.seller then (s, some .noPermission)
      else
        match do_unlist caller l false s with
        | (sp, some e) => (sp, some e)
        | (s1, none) => ({ s1 with listings := fupd s1.listings lid none }, none)

/-- Modelled from the spec: the Currency Ledger's `pay(payer, payee, amount)`
with existence-preserving semantics (spec sections 4.6 and 6): the payment
succeeds iff the payer holds at least `amount` and retains at least the
configured floor afterwards; on success the payer is debited and then the
payee credited.  A failed payment writes nothing. -/
def pay (c : Cfg) (payer payee : Account) (amt : Nat) (s : Sys) : Option Sys :=
  if amt ≤ s.balances payer ∧ c.floor ≤ s.balances payer - amt then
    let b1 := fupd s.balances payer (s.balances payer - amt)
    some { s with balances := fupd b1 payee (b1 payee + amt) }
  else none

/-- Dispatchable `buy` (`src/wallet/src/lib.rs:397-461`).  Order of effects as
in the source: `do_unlist` first, then the currency payment, then the
escrow-to-buyer move (registry errors swallowed by `do_transfer(..).ok()`),
then the `OrderCount` increment (overflow silently swallowed by `.ok()`),
then the order-history write; the `Listings` record is removed at top level.
Because dispatch is not transactional, a currency failure returns `s1`: the
`ListingCount` decrement and the `AllListings` / `ListingsByOwner` removals
committed by `do_unlist` persist, while neither the payment nor the asset has
moved and the `Listings` record survives (the failed closure is not written
back and the top-level remove is never reached). -/
def buy (c : Cfg) (caller : Account) (lid : Nat) (s : Sys) : Sys × Option WErr :=
  if c.allowEscrow = false then (s, some .escrowNotAllowed)
  else
    match s.listings lid with
    | none => (s, some .listingNotFound)
    | some l =>
      match do_unlist l.seller l true s with
      | (sp, some e) => (sp, some e)
      | (s1, none) =>
        match pay c caller l.seller l.price s1 with
        | none => (s1, some .currencyFailed)
        | some s2 =>
          let s3 := do_transfer escrowAccount caller l.asset s2
          let s4 := { s3 with orderCount :=
            if s3.orderCount = U64MAX then s3.orderCount else s3.orderCount + 1 }
          let hist := fupd s4.orderHistory l.asset (some ⟨l, caller, s4.blockNumber⟩)
          let s5 := { s4 with orderHistory := hist }
          ({ s5 with listings := fupd s5.listings lid none }, none)

/-- One step of the UTF-8 validation automaton used to model Rust's
`str::from_utf8` (shortest-form encodings only, no surrogates, max U+10FFFF).
State 0 accepts; states 1-3 expect that many continuation bytes; states 4-7
are the constrained first-continuation states after `E0`, `ED`, `F0`, `F4`. -/
def utf8Step (st b : Nat) : Option Nat :=
  if st = 0 then
    if b < 0x80 then some 0
    else if b < 0xC2 then none
    else if b < 0xE0 then some 1
    else if b = 0xE0 then some 4
    else if b < 0xED then some 2
    else if b = 0xED then some 5
    else if b < 0xF0 then some 2
    else if b = 0xF0 then some 6
    else if b < 0xF4 then some 3
    else if b = 0xF4 then some 7
    else none
  else if st = 1 then if 0x80 ≤ b ∧ b < 0xC0 then some 0 else none
  else if st = 2 then if 0x80 ≤ b ∧ b < 0xC0 then some 1 else none
  else if st = 3 then if 0x80 ≤ b ∧ b < 0xC0 then some 2 else none
  else if st = 4 then if 0xA0 ≤ b ∧ b < 0xC0 then some 1 else none
  else if st = 5 then if 0x80 ≤ b ∧ b < 0xA0 then some 1 else none
  else if st = 6 then if 0x90 ≤ b ∧ b < 0xC0 then some 2 else none
  else if st = 7 then if 0x80 ≤ b ∧ b < 0x90 then some 2 else none
  else none

/-- A byte sequence is valid UTF-8 iff the automaton consumes it and ends in
the accepting state. -/
def utf8Valid (bytes : List Nat) : Bool :=
  decide (bytes.foldl (fun ost b => ost.bind (fun st => utf8Step st b)) (some 0) = some 0)

/-- Dispatchable `emote` (`src/wallet/src/lib.rs:468-496`).  The token
existence check comes first; then `str::from_utf8(&emote).unwrap()` — a Rust
panic on invalid UTF-8; only then the emoji lookup, whose miss yields
`InvalidEmote`.  All of these precede the single `Emotes` write, so every
failing path returns the pre-state.  The emoji table (`emojis::lookup`) is an
external crate, passed in as the pure function `lk` from the validated name
bytes to the emoji's UTF-8 bytes. -/
def emote (lk : List Nat → Option (List Nat)) (caller : Account) (asset : Asset)
    (bytes : List Nat) (s : Sys) : Sys × Option WErr :=
  if s.reg.owners asset = none then (s, some .assetNotFound)
  else if utf8Valid bytes = false then (s, some .panicked)
  else
    match lk bytes with
    | none => (s, some .invalidEmote)
    | some emoji =>
        ({ s with emotes := fun a acc =>
          if a = asset ∧ acc = caller then s.emotes a acc ++ [emoji] else s.emotes a acc }, none)

/-- Dispatchable `claim` (`src/wallet/src/lib.rs:502-541`).  The repo's own
`OnClaimHandler` (`src/wallet/src/lib.rs:731-735`) approves unconditionally.
The custody move swallows registry errors; removal from `AllClaims` uses
`position(..).unwrap()` (a panic when absent — by then the custody move has
been committed).  The closure's `OpenClaims::remove` is followed, on success,
by `try_mutate`'s write-back of the (unmodified) claim value, so the
open-claim entry survives the call. -/
def claim (c : Cfg) (caller : Account) (cid : Nat) (s : Sys) : Sys × Option WErr :=
  if c.allowClaim = false then (s, some .claimingNotAllowed)
  else
    match s.openClaims caller cid with
    | none => (s, some .claimNotFound)
    | some cl =>
      let s1 := do_transfer claimAccount caller cl.asset s
      if decide (cl.asset ∈ s1.allClaims) = false then (s1, some .panicked)
      else ({ s1 with allClaims := s1.allClaims.erase cl.asset }, none)

/-- `Module::do_create_claim` (`src/wallet/src/lib.rs:668-700`): custody move
(registry errors swallowed), `NextClaimId` allocation (overflow propagated —
by then the custody move has been committed, so that error path returns
`s1`), then the `OpenClaims` insert and `AllClaims` append. -/
def do_create_claim (owner receiver : Account) (asset : Asset) (s : Sys) : Sys × Option WErr :=
  let s1 := do_transfer owner claimAccount asset s
  if s1.nextClaimId = U128MAX then (s1, some .noAvailableClaimId)
  else
    let cid := s1.nextClaimId
    let s2 := { s1 with nextClaimId := cid + 1 }
    let s3 := { s2 with openClaims := fun a k =>
      if a = receiver ∧ k = cid then some ⟨receiver, asset⟩ else s2.openClaims a k }
    ({ s3 with allClaims := s3.allClaims ++ [asset] }, none)

/-- Dispatchable `create_claim` (`src/wallet/src/lib.rs:548-570`): feature
flag, then token ownership (`NoPermission`), then the class lookup
(`AssetNotFound` when the class is absent) and the class-owner check
(`NoPermission`) — all before any write — then `do_create_claim`. -/
def create_claim (c : Cfg) (caller receiver : Account) (asset : Asset) (s : Sys) :
    Sys × Option WErr :=
  if c.allowClaim = false then (s, some .claimingNotAllowed)
  else if check_ownership caller asset s = false then (s, some .noPermission)
  else
    match s.reg.classes asset.1 with
    | none => (s, some .assetNotFound)
    | some co =>
      if caller ≠ co then (s, some .noPermission)
      else do_create_claim caller receiver asset s

/-- The storage state that persists after a dispatch, successful or not
(writes made before a failure point are kept — `decl_module!` dispatch in
this codebase is not transactional). -/
def stOf (r : Sys × Option WErr) : Sys := r.1

/-- The dispatch error of a call, if it failed. -/
def errOf (r : Sys × Option WErr) : Option WErr := r.2

/-- The balance map produced by a successful `pay`: debit the payer, then
credit the payee. -/
def paidBalances (payer payee : Account) (amt : Nat) (b : Account → Nat) : Account → Nat :=
  fupd (fupd b payer (b payer - amt)) payee ((fupd b payer (b payer - amt)) payee + amt)

/-- The state produced by a successful `list` whose escrow move went
through. -/
def listedState (caller : Account) (asset : Asset) (price : Nat) (s : Sys) : Sys :=
  { s with
    reg := { s.reg with owners := fupd s.reg.owners asset (some escrowAccount) }
    nextListingId := s.nextListingId + 1
    listingCount := if s.listingCount = U64MAX then s.listingCount else s.listingCount + 1
    listings := fupd s.listings s.nextListingId (some ⟨s.nextListingId, caller, asset, price⟩)
    listingsByOwner := fupd s.listingsByOwner caller (some ((s.listingsByOwner caller).getD [] ++ [s.nextListingId]))
    allListings := s.allListings ++ [asset] }

/-- One wallet extrinsic with its arguments. -/
inductive Op where
  | transferOp (caller t : Account) (asset : Asset)
  | burnOp (caller : Account) (asset : Asset)
  | listOp (caller : Account) (asset : Asset) (price : Nat)
  | unlistOp (caller : Account) (lid : Nat)
  | buyOp (caller : Account) (lid : Nat)
  | emoteOp (caller : Account) (asset : Asset) (bytes : List Nat)
  | claimOp (caller : Account) (cid : Nat)
  | createClaimOp (caller receiver : Account) (asset : Asset)

/-- Observable effect of dispatching one extrinsic: the persisting storage
state, whether or not the call failed. -/
def runOp (c : Cfg) (lk : List Nat → Option (List Nat)) (op : Op) (s : Sys) : Sys :=
  match op with
  | .transferOp a b t => stOf (transfer c a b t s)
  | .burnOp a t => stOf (burn c a t s)
  | .listOp a t p => stOf (list c a t p s)
  | .unlistOp a lid => stOf (unlist c a lid s)
  | .buyOp a lid => stOf (buy c a lid s)
  | .emoteOp a t bs => stOf (emote lk a t bs s)
  | .claimOp a cid => stOf (claim c a cid s)
  | .createClaimOp a r t => stOf (create_claim c a r t s)

/-- Observable effect of a sequence of extrinsics. -/
def runOps (c : Cfg) (lk : List Nat → Option (List Nat)) (ops : List Op) (s : Sys) : Sys :=
  ops.foldl (fun st op => runOp c lk op st) s

/-- The `ListingId` allocated by an operation, when it is a successful
`list`: the pre-state's `NextListingId`. -/
def allocLid (c : Cfg) (op : Op) (s : Sys) : Option Nat :=
  match op with
  | .listOp a t p =>
    match (list c a t p s).2 with
    | none => some s.nextListingId
    | some _ => none
  | _ => none

/-- The `ClaimId` allocated by an operation, when it is a successful
`create_claim`: the pre-state's `NextClaimId`. -/
def allocCid (c : Cfg) (op : Op) (s : Sys) : Option Nat :=
  match op with
  | .createClaimOp a r t =>
    match (create_claim c a r t s).2 with
    | none => some s.nextClaimId
    | some _ => none
  | _ => none

/-! ### Concrete fixtures

States mirroring the pallet's own test genesis (`mock.rs` / `new_test_ext`):
accounts 1..5 each hold 1000000 currency units, ALICE = 1 has created class 0
and minted token `(0,0)` to herself, existence floor 500. -/

/-- All four feature flags on, floor 500, as in the mock runtime. -/
def cfgAll : Cfg := ⟨true, true, true, true, 500⟩

/-- Registry after `create_class(ALICE)` and `mint(ALICE, (0,0))`. -/
def mockReg : Registry :=
  ⟨fun a => if a = (0,0) then some 1 else none,
   fun cl => if cl = 0 then some 1 else none,
   fun _ _ _ => false⟩

/-- Genesis system state of the mock runtime. -/
def mockSys : Sys :=
  { reg := mockReg
    balances := fun a => if 1 ≤ a ∧ a ≤ 5 then 1000000 else 0
    blockNumber := 1
    listings := fun _ => none
    listingsByOwner := fun _ => none
    allListings := []
    nextListingId := 0
    listingCount := 0
    orderCount := 0
    orderHistory := fun _ => none
    openClaims := fun _ _ => none
    allClaims := []
    nextClaimId := 0
    emotes := fun _ _ => [] }

/-- State after ALICE lists `(0,0)` at price 100. -/
def afterListSys : Sys := stOf (list cfgAll 1 (0,0) 100 mockSys)

/-- State after ALICE creates a claim on `(0,0)` for BOB = 2
(the `locked_asset_should_fail` scenario). -/
def afterClaimCreateSys : Sys := stOf (create_claim cfgAll 1 2 (0,0) mockSys)

/-- State after BOB redeems claim 0 in the `afterClaimCreateSys` state. -/
def afterClaimSys : Sys := stOf (claim cfgAll 2 0 afterClaimCreateSys)

/-- Registry identical to the mock genesis but whose external collaborator
vetoes the single move of `(0,0)` from ALICE into escrow. -/
def vetoReg : Registry :=
  { mockReg with vetoes := fun f t a => decide (f = 1 ∧ t = escrowAccount ∧ a = (0,0)) }

/-- Mock genesis with the vetoing registry. -/
def vetoSys : Sys := { mockSys with reg := vetoReg }

/-- Mock genesis with `ListingCount` already at the `u64` maximum. -/
def maxCountSys : Sys := { mockSys with listingCount := U64MAX }

/-- Mock genesis with `NextListingId` already at the `u64` maximum. -/
def maxIdSys : Sys := { mockSys with nextListingId := U64MAX }

/-- Mock genesis extended with a second token `(0,1)` also minted to ALICE. -/
def mockReg2 : Registry :=
  ⟨fun a => if a = (0,0) ∨ a = (0,1) then some 1 else none,
   fun cl => if cl = 0 then some 1 else none,
   fun _ _ _ => false⟩

/-- Mock genesis state with two tokens owned by ALICE. -/
def mockSys2 : Sys := { mockSys with reg := mockReg2 }

/-- An empty emoji table (every name misses). -/
def lk0 : List Nat → Option (List Nat) := fun _ => none

/-! ### Helper lemmas -/

/-- A claimed asset makes `is_locked` true. -/
theorem is_locked_of_claimed {s : Sys} {asset : Asset} (h : asset ∈ s.allClaims) :
    is_locked s asset = true := by
  simp [is_locked, is_claiming, h]

@[simp] theorem do_transfer_balances (f t : Account) (a : Asset) (s : Sys) :
    (do_transfer f t a s).balances = s.balances := by
  unfold do_transfer; split <;> rfl

@[simp] theorem do_transfer_nextListingId (f t : Account) (a : Asset) (s : Sys) :
    (do_transfer f t a s).nextListingId = s.nextListingId := by
  unfold do_transfer; split <;> rfl

@[simp] theorem do_transfer_nextClaimId (f t : Account) (a : Asset) (s : Sys) :
    (do_transfer f t a s).nextClaimId = s.nextClaimId := by
  unfold do_transfer; split <;> rfl

/-- `do_unlist` on a buy, when the asset is indexed and the seller has an
owner-index entry: no custody move, count decrement, index removals. -/
theorem do_unlist_buy_ok (l : Listing) (s : Sys) (xs : List Nat)
    (hall : l.asset ∈ s.allListings) (hxs : s.listingsByOwner l.seller = some xs) :
    do_unlist l.seller l true s = ({ s with
      listingCount := if s.listingCount = 0 then s.listingCount else s.listingCount - 1
      allListings := s.allListings.erase l.asset
      listingsByOwner := fupd s.listingsByOwner l.seller (some (xs.filter (fun x => x != l.id))) }, none) := by
  simp [do_unlist, hall, hxs]

/-- Inversion of a successful `pay`. -/
theorem pay_some_inv {c : Cfg} {payer payee : Account} {amt : Nat} {s s2 : Sys}
    (h : pay c payer payee amt s = some s2) :
    amt ≤ s.balances payer ∧ c.floor ≤ s.balances payer - amt ∧
    s2 = { s with balances := paidBalances payer payee amt s.balances } := by
  unfold pay at h
  split at h
  case isTrue hc => exact ⟨hc.1, hc.2, by injection h with h2; exact h2.symm⟩
  case isFalse => cases h

/-- A `list` by the owner of an unlocked asset, with the registry willing and
the id counter not exhausted, succeeds and produces `listedState`. -/
theorem list_ok_noveto (c : Cfg) (caller : Account) (asset : Asset) (price : Nat) (s : Sys)
    (hallow : c.allowEscrow = true)
    (hown : s.reg.owners asset = some caller)
    (hveto : s.reg.vetoes caller escrowAccount asset = false)
    (hnl : asset ∉ s.allListings) (hnc : asset ∉ s.allClaims)
    (hnid : s.nextListingId ≠ U64MAX) :
    list c caller asset price s = (listedState caller asset price s, none) := by
  have hcheck : check_ownership caller asset s = true := by simp [check_ownership, hown]
  have hlock : is_locked s asset = false := by
    simp [is_locked, is_listed, is_claiming, hnl, hnc]
  simp [list, listedState, hallow, hcheck, hlock, do_transfer, registryTransfer, hown, hveto,
    hnid]

theorem nextIds_transfer (c : Cfg) (a b : Account) (t : Asset) (s : Sys) :
    (stOf (transfer c a b t s)).nextListingId = s.nextListingId ∧
    (stOf (transfer c a b t s)).nextClaimId = s.nextClaimId := by
  by_cases h1 : c.allowTransfer = false
  · simp [transfer, stOf, h1]
  by_cases h2 : check_ownership a t s = false
  · simp [transfer, stOf, h1, h2]
  by_cases h3 : is_locked s t = true
  · simp [transfer, stOf, h1, h2, h3]
  · simp [transfer, stOf, h1, h2, h3]

theorem nextIds_burn (c : Cfg) (a : Account) (t : Asset) (s : Sys) :
    (stOf (burn c a t s)).nextListingId = s.nextListingId ∧
    (stOf (burn c a t s)).nextClaimId = s.nextClaimId := by
  by_cases h1 : c.allowBurn = false
  · simp [burn, stOf, h1]
  by_cases h2 : check_ownership a t s = false
  · simp [burn, stOf, h1, h2]
  by_cases h3 : is_locked s t = true
  · simp [burn, stOf, h1, h2, h3]
  cases hrb : registryBurn a t s.reg with
  | none => simp [burn, stOf, h1, h2, h3, hrb]
  | some r => simp [burn, stOf, h1, h2, h3, hrb]

theorem nextIds_list (c : Cfg) (a : Account) (t : Asset) (p : Nat) (s : Sys) :
    (stOf (list c a t p s)).nextClaimId = s.nextClaimId ∧
    s.nextListingId ≤ (stOf (list c a t p s)).nextListingId ∧
    ((list c a t p s).2 = none → (stOf (list c a t p s)).nextListingId = s.nextListingId + 1) := by
  by_cases h1 : c.allowEscrow = false
  · simp [list, stOf, h1]
  by_cases h2 : check_ownership a t s = false
  · simp [list, stOf, h1, h2]
  by_cases h3 : is_locked s t = true
  · simp [list, stOf, h1, h2, h3]
  by_cases h4 : s.nextListingId = U64MAX
  · simp [list, stOf, h1, h2, h3, h4]
  · simp [list, stOf, h1, h2, h3, h4]

theorem nextIds_do_unlist (a : Account) (l : Listing) (isBuy : Bool) (s : Sys) :
    (stOf (do_unlist a l isBuy s)).nextListingId = s.nextListingId ∧
    (stOf (do_unlist a l isBuy s)).nextClaimId = s.nextClaimId := by
  unfold do_unlist
  set s1 := if isBuy = true then s else do_transfer escrowAccount a l.asset s with hs1
  have hids : s1.nextListingId = s.nextListingId ∧ s1.nextClaimId = s.nextClaimId := by
    rw [hs1]; cases isBuy <;> simp
  by_cases hc : l.asset ∈ s1.allListings
  · cases hby : s1.listingsByOwner l.seller with
    | none => simp [stOf, hc, hby, hids.1, hids.2]
    | some xs => simp [stOf, hc, hby, hids.1, hids.2]
  · simp [stOf, hc, hids.1, hids.2]

theorem nextIds_unlist (c : Cfg) (a : Account) (lid : Nat) (s : Sys) :
    (stOf (unlist c a lid s)).nextListingId = s.nextListingId ∧
    (stOf (unlist c a lid s)).nextClaimId = s.nextClaimId := by
  by_cases h1 : c.allowEscrow = false
  · simp [unlist, stOf, h1]
  cases hls : s.listings lid with
  | none => simp [unlist, stOf, h1, hls]
  | some l =>
    by_cases h2 : a ≠ l.seller
    · simp [unlist, stOf, h1, hls, h2]
    obtain ⟨hA, hB⟩ := nextIds_do_unlist a l false s
    rcases hdu : do_unlist a l false s with ⟨sp, _ | e⟩
    · have hA2 : sp.nextListingId = s.nextListingId := by simpa [stOf, hdu] using hA
      have hB2 : sp.nextClaimId = s.nextClaimId := by simpa [stOf, hdu] using hB
      simp [unlist, stOf, h1, hls, h2, hdu, hA2, hB2]
    · have hA2 : sp.nextListingId = s.nextListingId := by simpa [stOf, hdu] using hA
      have hB2 : sp.nextClaimId = s.nextClaimId := by simpa [stOf, hdu] using hB
      simp [unlist, stOf, h1, hls, h2, hdu, hA2, hB2]

theorem nextIds_buy (c : Cfg) (a : Account) (lid : Nat) (s : Sys) :
    (stOf (buy c a lid s)).nextListingId = s.nextListingId ∧
    (stOf (buy c a lid s)).nextClaimId = s.nextClaimId := by
  by_cases h1 : c.allowEscrow = false
  · simp [buy, stOf, h1]
  cases hls : s.listings lid with
  | none => simp [buy, stOf, h1, hls]
  | some l =>
    obtain ⟨hA, hB⟩ := nextIds_do_unlist l.seller l true s
    rcases hdu : do_unlist l.seller l true s with ⟨sp, _ | e⟩
    · have hA2 : sp.nextListingId = s.nextListingId := by simpa [stOf, hdu] using hA
      have hB2 : sp.nextClaimId = s.nextClaimId := by simpa [stOf, hdu] using hB
      cases hpay : pay c a l.seller l.price sp with
      | none => simp [buy, stOf, h1, hls, hdu, hpay, hA2, hB2]
      | some s2 =>
        obtain ⟨_, _, rfl⟩ := pay_some_inv hpay
        simp [buy, stOf, h1, hls, hdu, hpay, hA2, hB2]
    · have hA2 : sp.nextListingId = s.nextListingId := by simpa [stOf, hdu] using hA
      have hB2 : sp.nextClaimId = s.nextClaimId := by simpa [stOf, hdu] using hB
      simp [buy, stOf, h1, hls, hdu, hA2, hB2]

theorem nextIds_emote (lk : List Nat → Option (List Nat)) (a : Account) (t : Asset)
    (bs : List Nat) (s : Sys) :
    (stOf (emote lk a t bs s)).nextListingId = s.nextListingId ∧
    (stOf (emote lk a t bs s)).nextClaimId = s.nextClaimId := by
  by_cases h1 : s.reg.owners t = none
  · simp [emote, stOf, h1]
  by_cases h2 : utf8Valid bs = false
  · simp [emote, stOf, h1, h2]
  cases hlk : lk bs with
  | none => simp [emote, stOf, h1, h2, hlk]
  | some em => simp [emote, stOf, h1, h2, hlk]

theorem nextIds_claim (c : Cfg) (a : Account) (cid : Nat) (s : Sys) :
    (stOf (claim c a cid s)).nextListingId = s.nextListingId ∧
    (stOf (claim c a cid s)).nextClaimId = s.nextClaimId := by
  by_cases h1 : c.allowClaim = false
  · simp [claim, stOf, h1]
  cases hcl : s.openClaims a cid with
  | none => simp [claim, stOf, h1, hcl]
  | some cl =>
    by_cases hc : cl.asset ∈ (do_transfer claimAccount a cl.asset s).allClaims
    · simp [claim, stOf, h1, hcl, hc]
    · simp [claim, stOf, h1, hcl, hc]

theorem nextIds_create_claim (c : Cfg) (a r : Account) (t : Asset) (s : Sys) :
    (stOf (create_claim c a r t s)).nextListingId = s.nextListingId ∧
    s.nextClaimId ≤ (stOf (create_claim c a r t s)).nextClaimId ∧
    ((create_claim c a r t s).2 = none →
      (stOf (create_claim c a r t s)).nextClaimId = s.nextClaimId + 1) := by
  by_cases h1 : c.allowClaim = false
  · simp [create_claim, stOf, h1]
  by_cases h2 : check_ownership a t s = false
  · simp [create_claim, stOf, h1, h2]
  cases hcls : s.reg.classes t.1 with
  | none => simp [create_claim, stOf, h1, h2, hcls]
  | some co =>
    by_cases h3 : a ≠ co
    · simp [create_claim, stOf, h1, h2, hcls, h3]
    by_cases h4 : s.nextClaimId = U128MAX
    · simp [create_claim, do_create_claim, stOf, h1, h2, hcls, h3, h4]
    · simp [create_claim, do_create_claim, stOf, h1, h2, hcls, h3, h4]

theorem runOp_nextIds_mono (c : Cfg) (lk : List Nat → Option (List Nat)) (op : Op) (s : Sys) :
    s.nextListingId ≤ (runOp c lk op s).nextListingId ∧
    s.nextClaimId ≤ (runOp c lk op s).nextClaimId := by
  cases op with
  | transferOp a b t =>
    obtain ⟨hA, hB⟩ := nextIds_transfer c a b t s
    exact ⟨le_of_eq hA.symm, le_of_eq hB.symm⟩
  | burnOp a t =>
    obtain ⟨hA, hB⟩ := nextIds_burn c a t s
    exact ⟨le_of_eq hA.symm, le_of_eq hB.symm⟩
  | listOp a t p =>
    obtain ⟨hC, hLe, _⟩ := nextIds_list c a t p s
    exact ⟨hLe, le_of_eq hC.symm⟩
  | unlistOp a lid =>
    obtain ⟨hA, hB⟩ := nextIds_unlist c a lid s
    exact ⟨le_of_eq hA.symm, le_of_eq hB.symm⟩
  | buyOp a lid =>
    obtain ⟨hA, hB⟩ := nextIds_buy c a lid s
    exact ⟨le_of_eq hA.symm, le_of_eq hB.symm⟩
  | emoteOp a t bs =>
    obtain ⟨hA, hB⟩ := nextIds_emote lk a t bs s
    exact ⟨le_of_eq hA.symm, le_of_eq hB.symm⟩
  | claimOp a cid =>
    obtain ⟨hA, hB⟩ := nextIds_claim c a cid s
    exact ⟨le_of_eq hA.symm, le_of_eq hB.symm⟩
  | createClaimOp a r t =>
    obtain ⟨hA, hLe, _⟩ := nextIds_create_claim c a r t s
    exact ⟨le_of_eq hA.symm, hLe⟩

theorem runOps_nextIds_mono (c : Cfg) (lk : List Nat → Option (List Nat)) (ops : List Op)
    (s : Sys) :
    s.nextListingId ≤ (runOps c lk ops s).nextListingId ∧
    s.nextClaimId ≤ (runOps c lk ops s).nextClaimId := by
  induction ops generalizing s with
  | nil => exact ⟨le_refl _, le_refl _⟩
  | cons op ops ih =>
    have h1 := runOp_nextIds_mono c lk op s
    have h2 := ih (runOp c lk op s)
    exact ⟨le_trans h1.1 h2.1, le_trans h1.2 h2.2⟩

theorem allocLid_some {c : Cfg} {op : Op} {s : Sys} {a : Nat} (h : allocLid c op s = some a) :
    a = s.nextListingId ∧
    ∀ lk : List Nat → Option (List Nat), (runOp c lk op s).nextListingId = a + 1 := by
  cases op with
  | listOp x t p =>
    rcases hr : (list c x t p s).2 with _ | e
    · simp [allocLid, hr] at h
      subst h
      refine ⟨rfl, fun lk => ?_⟩
      exact (nextIds_list c x t p s).2.2 hr
    · simp [allocLid, hr] at h
  | transferOp a b t => simp [allocLid] at h
  | burnOp a t => simp [allocLid] at h
  | unlistOp a lid => simp [allocLid] at h
  | buyOp a lid => simp [allocLid] at h
  | emoteOp a t bs => simp [allocLid] at h
  | claimOp a cid => simp [allocLid] at h
  | createClaimOp a r t => simp [allocLid] at h

theorem allocCid_some {c : Cfg} {op : Op} {s : Sys} {a : Nat} (h : allocCid c op s = some a) :
    a = s.nextClaimId ∧
    ∀ lk : List Nat → Option (List Nat), (runOp c lk op s).nextClaimId = a + 1 := by
  cases op with
  | createClaimOp x r t =>
    rcases hr : (create_claim c x r t s).2 with _ | e
    · simp [allocCid, hr] at h
      subst h
      refine ⟨rfl, fun lk => ?_⟩
      exact (nextIds_create_claim c x r t s).2.2 hr
    · simp [allocCid, hr] at h
  | transferOp a b t => simp [allocCid] at h
  | burnOp a t => simp [allocCid] at h
  | listOp a t p => simp [allocCid] at h
  | unlistOp a lid => simp [allocCid] at h
  | buyOp a lid => simp [allocCid] at h
  | emoteOp a t bs => simp [allocCid] at h
  | claimOp a cid => simp [allocCid] at h

/-- Reachable partial commit in `buy` (dispatch is not transactional): a
buyer with no funds fails the currency payment after `do_unlist` has already
committed its writes — the count is decremented and the asset de-indexed
(hence no longer locked) while the listing record survives, the asset stays
in escrow and no balance moves. -/
theorem buy_currency_failure_partial_commit :
    errOf (buy cfgAll 6 0 afterListSys) = some .currencyFailed ∧
    (stOf (buy cfgAll 6 0 afterListSys)).balances 6 = afterListSys.balances 6 ∧
    (stOf (buy cfgAll 6 0 afterListSys)).balances 1 = afterListSys.balances 1 ∧
    (stOf (buy cfgAll 6 0 afterListSys)).reg.owners (0,0) = some escrowAccount ∧
    afterListSys.listingCount = 1 ∧
    (stOf (buy cfgAll 6 0 afterListSys)).listingCount = 0 ∧
    afterListSys.allListings = [(0,0)] ∧
    (stOf (buy cfgAll 6 0 afterListSys)).allListings = [] ∧
    (stOf (buy cfgAll 6 0 afterListSys)).listings 0 = some ⟨0, 1, (0,0), 100⟩ := by
  decide

/-! ### Claims -/

/-- Claim C1, amended: with the respective features enabled, `transfer`,
`burn`, and `list` on an asset with an open claim (asset in `AllClaims`) all
fail and leave every store unchanged (each returns the pre-state paired with
its error); the error is `AssetLocked` when the caller is the asset's current
holder (the claim-custody account) and `NoPermission` otherwise. -/
theorem c1_claimed_asset_ops_fail (c : Cfg) (caller t : Account) (asset : Asset)
    (price : Nat) (s : Sys) (hc : asset ∈ s.allClaims)
    (h1 : c.allowTransfer = true) (h2 : c.allowBurn = true) (h3 : c.allowEscrow = true) :
    transfer c caller t asset s =
      (s, some (if check_ownership caller asset s = true then .assetLocked else .noPermission)) ∧
    burn c caller asset s =
      (s, some (if check_ownership caller asset s = true then .assetLocked else .noPermission)) ∧
    list c caller asset price s =
      (s, some (if check_ownership caller asset s = true then .assetLocked else .noPermission)) := by
  have hlock := is_locked_of_claimed hc
  cases hown : check_ownership caller asset s with
  | false => simp [transfer, burn, list, h1, h2, h3, hown, hlock]
  | true => simp [transfer, burn, list, h1, h2, h3, hown, hlock]

/-- Claim C1, counterexample to the claim as stated: in the
`locked_asset_should_fail` scenario (ALICE created a claim on `(0,0)` for
BOB, so `(0,0)` has an open claim), ALICE's `transfer`, `burn`, and `list`
all fail with `NoPermission`, not with `AssetLocked`. -/
theorem c1_counterexample :
    (0,0) ∈ afterClaimCreateSys.allClaims ∧
    errOf (transfer cfgAll 1 2 (0,0) afterClaimCreateSys) = some .noPermission ∧
    errOf (burn cfgAll 1 (0,0) afterClaimCreateSys) = some .noPermission ∧
    errOf (list cfgAll 1 (0,0) 100 afterClaimCreateSys) = some .noPermission ∧
    errOf (transfer cfgAll 1 2 (0,0) afterClaimCreateSys) ≠ some .assetLocked ∧
    errOf (burn cfgAll 1 (0,0) afterClaimCreateSys) ≠ some .assetLocked ∧
    errOf (list cfgAll 1 (0,0) 100 afterClaimCreateSys) ≠ some .assetLocked := by
  decide

/-- Claim C1, witness: the amended statement applied at the concrete
`locked_asset_should_fail` state. -/
theorem c1_witness :
    transfer cfgAll 1 2 (0,0) afterClaimCreateSys = (afterClaimCreateSys, some .noPermission) := by
  have h := c1_claimed_asset_ops_fail cfgAll 1 2 (0,0) 100 afterClaimCreateSys
    (by decide) rfl rfl rfl
  have hown : check_ownership 1 (0,0) afterClaimCreateSys = false := by decide
  rw [hown] at h
  simpa using h.1

/-- Claim C2, amended: for a listing whose asset sits in escrow and whose
indexes are intact, and a buyer distinct from the seller, `buy` either fails
having moved neither the payment nor the asset (all balances and all
registry holdings are exactly as before — though, dispatch being
non-transactional, `do_unlist`'s index writes may persist, see
`buy_currency_failure_partial_commit`), or succeeds having moved both, with
`seller' = seller + price` and `buyer' = buyer - price` exactly. -/
theorem c2_buy_moves_both_or_neither (c : Cfg) (caller : Account) (lid : Nat) (l : Listing)
    (s : Sys)
    (hallow : c.allowEscrow = true)
    (hl : s.listings lid = some l)
    (hne : caller ≠ l.seller)
    (hesc : s.reg.owners l.asset = some escrowAccount)
    (hveto : s.reg.vetoes escrowAccount caller l.asset = false)
    (hall : l.asset ∈ s.allListings)
    (hby : s.listingsByOwner l.seller ≠ none) :
    (errOf (buy c caller lid s) ≠ none ∧
      (stOf (buy c caller lid s)).balances = s.balances ∧
      (stOf (buy c caller lid s)).reg.owners = s.reg.owners) ∨
    (∃ s2, buy c caller lid s = (s2, none) ∧
      l.price ≤ s.balances caller ∧
      s2.balances l.seller = s.balances l.seller + l.price ∧
      s2.balances caller = s.balances caller - l.price ∧
      s2.reg.owners l.asset = some caller ∧
      s2.listings lid = none) := by
  obtain ⟨xs, hxs⟩ := Option.ne_none_iff_exists'.mp hby
  have hdu := do_unlist_buy_ok l s xs hall hxs
  set s1 : Sys := { s with
      listingCount := if s.listingCount = 0 then s.listingCount else s.listingCount - 1
      allListings := s.allListings.erase l.asset
      listingsByOwner := fupd s.listingsByOwner l.seller (some (xs.filter (fun x => x != l.id))) }
    with hs1
  simp only [buy, hallow, Bool.true_eq_false, if_false, hl, hdu]
  rcases hpay : pay c caller l.seller l.price s1 with _ | s2
  · exact Or.inl ⟨by simp [errOf], rfl, rfl⟩
  · obtain ⟨h1, h2, rfl⟩ := pay_some_inv hpay
    right
    refine ⟨_, rfl, ?_, ?_, ?_, ?_, ?_⟩
    · exact h1
    · simp [do_transfer_balances, paidBalances, fupd, Ne.symm hne]
    · simp [do_transfer_balances, paidBalances, fupd, hne, Ne.symm hne]
    · simp [do_transfer, registryTransfer, fupd, hesc, hveto]
    · simp [do_transfer, registryTransfer, fupd, hesc, hveto]

/-- Claim C2, counterexample to the claim as stated: the seller may buy their
own listing (the pallet does not forbid it).  ALICE buys her own listing 0 at
price 100: the call succeeds, yet her balance is unchanged — so after this
successful buy the seller's free balance does not equal its prior value plus
the price. -/
theorem c2_counterexample :
    afterListSys.listings 0 = some ⟨0, 1, (0,0), 100⟩ ∧
    errOf (buy cfgAll 1 0 afterListSys) = none ∧
    (stOf (buy cfgAll 1 0 afterListSys)).balances 1 = afterListSys.balances 1 ∧
    (stOf (buy cfgAll 1 0 afterListSys)).balances 1 ≠ afterListSys.balances 1 + 100 := by
  decide

/-- Claim C2, witness: the amended statement applied at the `buy_should_work`
scenario (BOB buys ALICE's listing 0). -/
theorem c2_witness :
    (errOf (buy cfgAll 2 0 afterListSys) ≠ none ∧
      (stOf (buy cfgAll 2 0 afterListSys)).balances = afterListSys.balances ∧
      (stOf (buy cfgAll 2 0 afterListSys)).reg.owners = afterListSys.reg.owners) ∨
    (∃ s2, buy cfgAll 2 0 afterListSys = (s2, none) ∧
      (100:Nat) ≤ afterListSys.balances 2 ∧
      s2.balances 1 = afterListSys.balances 1 + 100 ∧
      s2.balances 2 = afterListSys.balances 2 - 100 ∧
      s2.reg.owners (0,0) = some 2 ∧
      s2.listings 0 = none) :=
  c2_buy_moves_both_or_neither cfgAll 2 0 ⟨0, 1, (0,0), 100⟩ afterListSys rfl (by decide)
    (by decide) (by decide) (by decide) (by decide) (by decide)

/-- Claim C3, failing run: when the Asset Registry refuses the transfer of
`(0,0)` into escrow, `list` nevertheless succeeds — the failure is swallowed
by `do_transfer(..).ok()` — and every wallet store is written (`Listings`,
`ListingsByOwner`, `AllListings`, `ListingCount`, `NextListingId`) while the
asset never left ALICE.  The claim says the whole operation must fail with no
store write. -/
theorem c3_registry_failure_swallowed :
    (registryTransfer 1 escrowAccount (0,0) vetoSys.reg).isNone = true ∧
    errOf (list cfgAll 1 (0,0) 100 vetoSys) = none ∧
    (stOf (list cfgAll 1 (0,0) 100 vetoSys)).listings 0 = some ⟨0, 1, (0,0), 100⟩ ∧
    (stOf (list cfgAll 1 (0,0) 100 vetoSys)).listingsByOwner 1 = some [0] ∧
    (stOf (list cfgAll 1 (0,0) 100 vetoSys)).allListings = [(0,0)] ∧
    (stOf (list cfgAll 1 (0,0) 100 vetoSys)).listingCount = 1 ∧
    (stOf (list cfgAll 1 (0,0) 100 vetoSys)).nextListingId = 1 ∧
    (stOf (list cfgAll 1 (0,0) 100 vetoSys)).reg.owners (0,0) = some 1 := by
  decide

/-- Claim C4: `list` then `unlist` by the same seller, starting from any state
where the seller holds the unlocked asset, the registry is willing in both
directions, the counters are not at their `u64` bounds, and the seller's
owner-index does not already contain the fresh id, restores the pre-`list`
holder, restores `ListingCount`, and removes the listing and asset from
`Listings`, `AllListings`, and the seller's `ListingsByOwner` entry. -/
theorem c4_round_trip (c : Cfg) (caller : Account) (asset : Asset) (price : Nat) (s : Sys)
    (hallow : c.allowEscrow = true)
    (hown : s.reg.owners asset = some caller)
    (hnl : asset ∉ s.allListings) (hnc : asset ∉ s.allClaims)
    (hveto1 : s.reg.vetoes caller escrowAccount asset = false)
    (hveto2 : s.reg.vetoes escrowAccount caller asset = false)
    (hnid : s.nextListingId ≠ U64MAX)
    (hcnt : s.listingCount ≠ U64MAX)
    (hfresh : s.nextListingId ∉ (s.listingsByOwner caller).getD []) :
    ∃ s1 s2, list c caller asset price s = (s1, none) ∧
      unlist c caller s.nextListingId s1 = (s2, none) ∧
      s2.reg.owners asset = some caller ∧
      s2.listingCount = s.listingCount ∧
      s2.listings s.nextListingId = none ∧
      s2.allListings = s.allListings ∧
      asset ∉ s2.allListings ∧
      s2.listingsByOwner caller = some ((s.listingsByOwner caller).getD []) := by
  have hlist := list_ok_noveto c caller asset price s hallow hown hveto1 hnl hnc hnid
  have hfilter : ((s.listingsByOwner caller).getD []).filter
      (fun x => x != s.nextListingId) = (s.listingsByOwner caller).getD [] := by
    refine List.filter_eq_self.mpr ?_
    intro x hx
    simp only [bne_iff_ne, ne_eq]
    exact fun he => hfresh (he ▸ hx)
  have hunl : unlist c caller s.nextListingId (listedState caller asset price s) = ({ s with
      reg := { s.reg with owners := fupd (fupd s.reg.owners asset (some escrowAccount)) asset (some caller) }
      nextListingId := s.nextListingId + 1
      listingCount := s.listingCount
      listings := fupd (fupd s.listings s.nextListingId (some ⟨s.nextListingId, caller, asset, price⟩)) s.nextListingId none
      listingsByOwner := fupd (fupd s.listingsByOwner caller (some ((s.listingsByOwner caller).getD [] ++ [s.nextListingId]))) caller (some ((s.listingsByOwner caller).getD []))
      allListings := s.allListings }, none) := by
    simp [unlist, listedState, do_unlist, do_transfer, registryTransfer, fupd, hallow, hveto2,
      hcnt, List.erase_append_right _ hnl, List.filter_append, hfilter]
  refine ⟨_, _, hlist, hunl, ?_, rfl, ?_, rfl, hnl, ?_⟩
  · simp [fupd]
  · simp [fupd]
  · simp [fupd]

/-- Claim C4, witness: the round trip applied at the mock genesis
(`unlisting_should_work` scenario). -/
theorem c4_witness :
    ∃ s1 s2, list cfgAll 1 (0,0) 100 mockSys = (s1, none) ∧
      unlist cfgAll 1 mockSys.nextListingId s1 = (s2, none) ∧
      s2.reg.owners (0,0) = some 1 ∧
      s2.listingCount = mockSys.listingCount ∧
      s2.listings mockSys.nextListingId = none ∧
      s2.allListings = mockSys.allListings ∧
      (0,0) ∉ s2.allListings ∧
      s2.listingsByOwner 1 = some ((mockSys.listingsByOwner 1).getD []) :=
  c4_round_trip cfgAll 1 (0,0) 100 mockSys rfl (by decide) (by decide) (by decide)
    (by decide) (by decide) (by decide) (by decide) (by decide)

/-- Claim C5, failing run: ALICE `create_claim`s `(0,0)` for BOB, BOB
`claim`s it.  The call succeeds, BOB becomes the holder, the `AllClaims`
index entry is removed and claim custody no longer holds the asset — but the
`OpenClaims` entry survives, because the closure's `OpenClaims::remove` is
overwritten by `try_mutate`'s write-back of the claim value.  Residual state
remains, contradicting the claim. -/
theorem c5_claim_leaves_residual_record :
    errOf (claim cfgAll 2 0 afterClaimCreateSys) = none ∧
    afterClaimSys.reg.owners (0,0) = some 2 ∧
    afterClaimSys.allClaims = [] ∧
    afterClaimCreateSys.openClaims 2 0 = some ⟨2,(0,0)⟩ ∧
    afterClaimSys.openClaims 2 0 = some ⟨2,(0,0)⟩ := by
  decide

/-- Claim C6: `NextListingId` and `NextClaimId` never decrease under any
sequence of wallet operations; each successful `list` / `create_claim`
increments its counter by exactly one, allocating the pre-state value; and
across any run, two allocated listing ids (or claim ids) at different
positions are strictly ordered — no id is ever allocated twice. -/
theorem c6_counter_monotonicity :
    (∀ (c : Cfg) (lk : List Nat → Option (List Nat)) (ops : List Op) (s : Sys),
      s.nextListingId ≤ (runOps c lk ops s).nextListingId ∧
      s.nextClaimId ≤ (runOps c lk ops s).nextClaimId) ∧
    (∀ (c : Cfg) (a : Account) (t : Asset) (p : Nat) (s s2 : Sys),
      list c a t p s = (s2, none) → s2.nextListingId = s.nextListingId + 1) ∧
    (∀ (c : Cfg) (a r : Account) (t : Asset) (s s2 : Sys),
      create_claim c a r t s = (s2, none) → s2.nextClaimId = s.nextClaimId + 1) ∧
    (∀ (c : Cfg) (lk : List Nat → Option (List Nat)) (s0 : Sys) (pre : List Op) (opi : Op)
      (mid : List Op) (opj : Op) (a b : Nat),
      allocLid c opi (runOps c lk pre s0) = some a →
      allocLid c opj (runOps c lk (pre ++ opi :: mid) s0) = some b → a < b) ∧
    (∀ (c : Cfg) (lk : List Nat → Option (List Nat)) (s0 : Sys) (pre : List Op) (opi : Op)
      (mid : List Op) (opj : Op) (a b : Nat),
      allocCid c opi (runOps c lk pre s0) = some a →
      allocCid c opj (runOps c lk (pre ++ opi :: mid) s0) = some b → a < b) := by
  refine ⟨fun c lk ops s => runOps_nextIds_mono c lk ops s, ?_, ?_, ?_, ?_⟩
  · intro c a t p s s2 h
    have h2 : (list c a t p s).2 = none := by rw [h]
    have h1 : stOf (list c a t p s) = s2 := by rw [h]; rfl
    have := (nextIds_list c a t p s).2.2 h2
    rw [h1] at this
    exact this
  · intro c a r t s s2 h
    have h2 : (create_claim c a r t s).2 = none := by rw [h]
    have h1 : stOf (create_claim c a r t s) = s2 := by rw [h]; rfl
    have := (nextIds_create_claim c a r t s).2.2 h2
    rw [h1] at this
    exact this
  · intro c lk s0 pre opi mid opj a b ha hb
    obtain ⟨haEq, haRun⟩ := allocLid_some ha
    obtain ⟨hbEq, _⟩ := allocLid_some hb
    have hsplit : runOps c lk (pre ++ opi :: mid) s0 =
        runOps c lk mid (runOp c lk opi (runOps c lk pre s0)) := by
      simp [runOps, List.foldl_append]
    have hmono := (runOps_nextIds_mono c lk mid (runOp c lk opi (runOps c lk pre s0))).1
    have hstep := haRun lk
    rw [hsplit] at hbEq
    omega
  · intro c lk s0 pre opi mid opj a b ha hb
    obtain ⟨haEq, haRun⟩ := allocCid_some ha
    obtain ⟨hbEq, _⟩ := allocCid_some hb
    have hsplit : runOps c lk (pre ++ opi :: mid) s0 =
        runOps c lk mid (runOp c lk opi (runOps c lk pre s0)) := by
      simp [runOps, List.foldl_append]
    have hmono := (runOps_nextIds_mono c lk mid (runOp c lk opi (runOps c lk pre s0))).2
    have hstep := haRun lk
    rw [hsplit] at hbEq
    omega

/-- Claim C6, witness: two consecutive `list`s by ALICE on distinct tokens
allocate ids 0 then 1, strictly increasing. -/
theorem c6_witness :
    allocLid cfgAll (Op.listOp 1 (0,0) 100) (runOps cfgAll lk0 [] mockSys2) = some 0 ∧
    allocLid cfgAll (Op.listOp 1 (0,1) 50)
      (runOps cfgAll lk0 ([] ++ Op.listOp 1 (0,0) 100 :: []) mockSys2) = some 1 ∧
    (0:Nat) < 1 := by
  refine ⟨by decide, by decide, ?_⟩
  exact c6_counter_monotonicity.2.2.2.1 cfgAll lk0 mockSys2 [] (Op.listOp 1 (0,0) 100) []
    (Op.listOp 1 (0,1) 50) 0 1 (by decide) (by decide)

/-- Claim C7, amended: with escrow enabled, `unlist` of an absent listing id
fails with `ListingNotFound`, and `unlist` by a caller who is not the
listing's seller fails with `NoPermission` (not `ListingNotFound`); in both
cases the pre-state is returned unchanged. -/
theorem c7_unlist_failure_cases (c : Cfg) (caller : Account) (lid : Nat) (s : Sys)
    (h : c.allowEscrow = true) :
    (s.listings lid = none → unlist c caller lid s = (s, some .listingNotFound)) ∧
    (∀ l, s.listings lid = some l → caller ≠ l.seller →
      unlist c caller lid s = (s, some .noPermission)) := by
  constructor
  · intro hnone
    simp [unlist, h, hnone]
  · intro l hsome hne
    simp [unlist, h, hsome, hne]

/-- Claim C7, counterexample to the claim as stated: in the
`unlisting_should_fail` scenario, BOB = 2 unlists ALICE's listing 0 and gets
`NoPermission`, not `ListingNotFound`, and the listing still exists. -/
theorem c7_counterexample :
    afterListSys.listings 0 ≠ none ∧
    errOf (unlist cfgAll 2 0 afterListSys) = some .noPermission ∧
    errOf (unlist cfgAll 2 0 afterListSys) ≠ some .listingNotFound := by
  decide

/-- Claim C7, witness: the amended statement applied concretely, one branch
per failure mode. -/
theorem c7_witness :
    unlist cfgAll 1 5 mockSys = (mockSys, some .listingNotFound) ∧
    unlist cfgAll 2 0 afterListSys = (afterListSys, some .noPermission) := by
  constructor
  · exact (c7_unlist_failure_cases cfgAll 1 5 mockSys rfl).1 (by decide)
  · exact (c7_unlist_failure_cases cfgAll 2 0 afterListSys rfl).2
      ⟨0, 1, (0,0), 100⟩ (by decide) (by decide)

/-- Claim C8, failing run: `NextListingId` exhaustion is indeed a hard
failure (`NoAvailableListingId`), but the `ListingCount` increment is
`mutate(..).ok()`: with `ListingCount` at `u64::MAX`, `list` still succeeds,
inserts the listing, and silently leaves the count unchanged — the counter is
now out of sync with the store, contradicting the claim's "hard failure,
never out of sync" for every counter update. -/
theorem c8_count_overflow_swallowed :
    errOf (list cfgAll 1 (0,0) 100 maxIdSys) = some .noAvailableListingId ∧
    errOf (list cfgAll 1 (0,0) 100 maxCountSys) = none ∧
    (stOf (list cfgAll 1 (0,0) 100 maxCountSys)).listingCount = U64MAX ∧
    (stOf (list cfgAll 1 (0,0) 100 maxCountSys)).listings 0 = some ⟨0, 1, (0,0), 100⟩ ∧
    (stOf (list cfgAll 1 (0,0) 100 maxCountSys)).allListings = [(0,0)] := by
  decide

/-- Claim C9: with claiming enabled, `create_claim` succeeds only when the
caller owns the asset token and is the owner of the asset's class; a failed
token-ownership check yields `NoPermission`; when the caller owns the token
but the class lookup fails the result is `AssetNotFound`; when the class
exists but the caller is not its owner the result is `NoPermission`; every
failing case returns the pre-state unchanged. -/
theorem c9_create_claim_auth (c : Cfg) (caller receiver : Account) (asset : Asset)
    (s : Sys) (h : c.allowClaim = true) :
    (∀ s2, create_claim c caller receiver asset s = (s2, none) →
      check_ownership caller asset s = true ∧ s.reg.classes asset.1 = some caller) ∧
    (check_ownership caller asset s = false →
      create_claim c caller receiver asset s = (s, some .noPermission)) ∧
    (check_ownership caller asset s = true → s.reg.classes asset.1 = none →
      create_claim c caller receiver asset s = (s, some .assetNotFound)) ∧
    (∀ co, check_ownership caller asset s = true → s.reg.classes asset.1 = some co →
      caller ≠ co →
      create_claim c caller receiver asset s = (s, some .noPermission)) := by
  refine ⟨?_, ?_, ?_, ?_⟩
  · intro s2 hok
    cases hown : check_ownership caller asset s with
    | false => simp [create_claim, h, hown] at hok
    | true =>
      refine ⟨rfl, ?_⟩
      cases hcl : s.reg.classes asset.1 with
      | none => simp [create_claim, h, hown, hcl] at hok
      | some co =>
        by_cases hco : caller = co
        · subst hco; rfl
        · simp [create_claim, h, hown, hcl, hco] at hok
  · intro hown
    simp [create_claim, h, hown]
  · intro hown hcl
    simp [create_claim, h, hown, hcl]
  · intro co hown hcl hco
    simp [create_claim, h, hown, hcl, hco]

/-- Claim C9, witness: BOB = 2 does not own `(0,0)`, so their `create_claim`
fails with `NoPermission` in the mock genesis state. -/
theorem c9_witness :
    create_claim cfgAll 2 2 (0,0) mockSys = (mockSys, some .noPermission) := by
  exact (c9_create_claim_auth cfgAll 2 2 (0,0) mockSys rfl).2.1 (by decide)

/-- Claim C10: when the asset exists but the emote bytes are not valid UTF-8,
`emote` panics (the `str::from_utf8(..).unwrap()`) before any write, it does
not return a typed error; and an `InvalidEmote` result is only reachable when
the bytes are valid UTF-8 but miss the emoji table. -/
theorem c10_emote_utf8_panic :
    (∀ (lk : List Nat → Option (List Nat)) (caller : Account) (asset : Asset)
      (bytes : List Nat) (s : Sys), s.reg.owners asset ≠ none → utf8Valid bytes = false →
      emote lk caller asset bytes s = (s, some .panicked)) ∧
    (∀ (lk : List Nat → Option (List Nat)) (caller : Account) (asset : Asset)
      (bytes : List Nat) (s : Sys), errOf (emote lk caller asset bytes s) = some .invalidEmote →
      utf8Valid bytes = true ∧ lk bytes = none) := by
  constructor
  · intro lk caller asset bytes s htok hbad
    simp [emote, htok, hbad]
  · intro lk caller asset bytes s hres
    by_cases htok : s.reg.owners asset = none
    · simp [emote, errOf, htok] at hres
    · cases hval : utf8Valid bytes with
      | false => simp [emote, errOf, htok, hval] at hres
      | true =>
        cases hlk : lk bytes with
        | none => exact ⟨rfl, rfl⟩
        | some emoji => simp [emote, errOf, htok, hval, hlk] at hres

/-- Claim C10, witness: the byte `0xFF` is not valid UTF-8, and posting it as
an emote on the existing token `(0,0)` panics. -/
theorem c10_witness :
    emote (fun _ => none) 2 (0,0) [255] mockSys = (mockSys, some .panicked) := by
  exact c10_emote_utf8_panic.1 (fun _ => none) 2 (0,0) [255] mockSys (by decide) (by decide)

end GPWallet
